import Mathlib

/-!
Shallow embedding of the SkyMarshal computer-vision core (speed estimator,
license-plate reader, frame orchestrator) and verification of its
specification.  Machine floats of the Python source are modelled by exact
rationals; external library calls (the cv2 perspective transform,
numpy's Euclidean norm, the YOLO plate detector and the EasyOCR engine)
are modelled as explicit function parameters, so every theorem quantifies
over their possible behaviours and every concrete instance picks an
explicit one.
-/

namespace SkyMarshal

/-- Python's built-in `round` on an exact rational: round half to even
(banker's rounding), which is what CPython uses for ties. -/
def pyRound (x : ℚ) : ℤ :=
  let n := ⌊x⌋
  let f := x - n
  if f < 1/2 then n
  else if 1/2 < f then n + 1
  else if Even n then n else n + 1

/-- Python's `round(x, 1)`: one decimal place. -/
def round1 (x : ℚ) : ℚ := (pyRound (10 * x) : ℚ) / 10

/-! ## SpeedEstimator (src/speed_estimator.py) -/

/-- Per-track state of `SpeedEstimator`; mirrors the dict literal created in
`estimate_speed` (keys `last_frame`, `last_pos`, `speed_history`,
`current_speed`, `stable_frames`, `hits`). -/
structure TrackData where
  last_frame : ℤ
  last_pos : ℚ × ℚ
  speed_history : List ℚ
  current_speed : ℚ
  stable_frames : ℤ
  hits : ℕ
deriving DecidableEq

/-- The `tracker_data` dictionary, keyed by integer track id. -/
abbrev Tracker := ℤ → Option TrackData

/-- `tracker_data = {}` at construction. -/
def Tracker.init : Tracker := fun _ => none

/-- One call to `estimate_speed`.  `ground_pos` is the output of
`get_real_world_pos` (an external cv2 homography applied to the image
point); since the homography is a bijection on its domain, quantifying
over ground positions covers all image inputs. -/
structure Call where
  track_id : ℤ
  ground_pos : ℚ × ℚ
  frame : ℤ
  fps : ℚ
deriving DecidableEq

/-- Lines 64-69 of speed_estimator.py: instantaneous speed in km/h.
`norm2` stands for `np.linalg.norm` on the 2-vector of coordinate
differences (an external numpy call, kept abstract). -/
def instSpeed (norm2 : ℚ × ℚ → ℚ) (last_pos pos : ℚ × ℚ)
    (frames_elapsed : ℤ) (fps : ℚ) : ℚ :=
  let dist := norm2 (pos.1 - last_pos.1, pos.2 - last_pos.2)
  let time_elapsed := (frames_elapsed : ℚ) / fps
  let speed_ms := dist / time_elapsed
  speed_ms * 3.6

/-- Lines 77-83 of speed_estimator.py: the value stored into
`current_speed` after a sample is accepted: sort a copy of the history,
average the `[mid-5:mid+5]` slice when more than 15 samples are present
(otherwise all of them), round to one decimal, clamp at 160.0. -/
def smoothedSpeed (hist : List ℚ) : ℚ :=
  let sorted := hist.insertionSort (· ≤ ·)
  let mid := sorted.length / 2
  let avg :=
    if sorted.length > 15 then ((sorted.drop (mid - 5)).take 10).sum / 10
    else sorted.sum / (sorted.length : ℚ)
  min (round1 avg) 160

/-- `SpeedEstimator.estimate_speed`, returning the reported speed and the
updated `tracker_data` map.  Translated line by line from
speed_estimator.py lines 42-96. -/
def estimate_speed (norm2 : ℚ × ℚ → ℚ) (tracker : Tracker) (c : Call) :
    ℚ × Tracker :=
  match tracker c.track_id with
  | none =>
      (0, Function.update tracker c.track_id
            (some ⟨c.frame, c.ground_pos, [], 0, 0, 0⟩))
  | some data =>
      let frames_elapsed := c.frame - data.last_frame
      if frames_elapsed ≤ 0 then
        (data.current_speed, tracker)
      else
        let inst_speed_kmh :=
          instSpeed norm2 data.last_pos c.ground_pos frames_elapsed c.fps
        let data1 : TrackData :=
          if 5 < inst_speed_kmh ∧ inst_speed_kmh < 220 then
            let appended := data.speed_history ++ [inst_speed_kmh]
            let hist := if appended.length > 25 then appended.tail else appended
            { data with
              speed_history := hist
              current_speed := smoothedSpeed hist
              stable_frames := data.stable_frames + frames_elapsed
              hits := data.hits + 1 }
          else data
        let data2 : TrackData :=
          { data1 with last_pos := c.ground_pos, last_frame := c.frame }
        let ret := if data2.stable_frames < 15 ∨ data2.hits < 8 then 0
                   else data2.current_speed
        (ret, Function.update tracker c.track_id (some data2))

/-- Folding `estimate_speed` over a list of calls, starting from a given
tracker state. -/
def runCalls (norm2 : ℚ × ℚ → ℚ) (tracker : Tracker) : List Call → Tracker
  | [] => tracker
  | c :: cs => runCalls norm2 (estimate_speed norm2 tracker c).2 cs

/-- The Euclidean norm restricted to axis-aligned displacements, where it
is exactly rational; used to instantiate `norm2` in concrete runs. -/
def axisNorm (v : ℚ × ℚ) : ℚ := |v.1| + |v.2|

/-- The history stored after an accepted sample. -/
def newHistory (d : TrackData) (inst : ℚ) : List ℚ :=
  let appended := d.speed_history ++ [inst]
  if appended.length > 25 then appended.tail else appended

/-! ### The smoothing function, spec-side -/

/-- Modelled from the spec's words (§4.2 step 7): sort a copy of the
history; if its length is greater than 15, take the mean of the 10
samples at sorted indices `mid-5` through `mid+4` where `mid` is the
sorted midpoint; otherwise the mean of all samples; round to 1 decimal
place and take the minimum with 160.0. -/
def spec_smoothed (hist : List ℚ) : ℚ :=
  let sorted := hist.insertionSort (· ≤ ·)
  let mid := sorted.length / 2
  let avg :=
    if 15 < sorted.length then
      (((List.range 10).map fun i => sorted.getD (mid - 5 + i) 0).sum) / 10
    else sorted.sum / (sorted.length : ℚ)
  min (round1 avg) 160

/-- Every stored history sample lies in the accepted band (5, 220). -/
def histOK (d : TrackData) : Prop :=
  ∀ x ∈ d.speed_history, 5 < x ∧ x < 220

/-- The history invariant, tracker-wide. -/
def TrackerOK (tr : Tracker) : Prop :=
  ∀ i d, tr i = some d → histOK d

/-- The reporting gate is open and the stored smoothed speed is
nonzero. -/
def GateOpen (d : TrackData) : Prop :=
  15 ≤ d.stable_frames ∧ 8 ≤ d.hits ∧ d.current_speed ≠ 0

/-! ## LicensePlateReader (src/alpr.py)

Images are an abstract type `Img`; the numpy slicing operations used by
the reader (`frame[y1:y2, x1:x2]`, `.size`, the bottom-60% crop
`frame[int(h*0.4):, :]`) are bundled in `ImgOps`.  The YOLO plate model
and the EasyOCR `readtext` call are external models, embedded as
functions from images to their result lists.  A raised Python exception
is `Except.error ()`. -/

/-- One entry of `plate_cache`: `{'text': ..., 'last_attempt': ...}`. -/
structure CacheEntry where
  text : String
  last_attempt : ℚ
deriving DecidableEq

/-- The numpy image operations used by alpr.py and processor.py. -/
structure ImgOps (Img : Type) where
  size : Img → ℕ
  cropBox : Img → ℤ × ℤ × ℤ × ℤ → Img
  cropBottom : Img → Img

/-- State of a `LicensePlateReader` after `__init__`: whether the
specialized YOLO plate model loaded, the model itself, the EasyOCR
reader (`none` when `easyocr.Reader` raised), and the plate cache. -/
structure ALPRState (Img : Type) where
  model_loaded : Bool
  plate_model : Img → List (ℤ × ℤ × ℤ × ℤ)
  reader : Option (Img → List (String × ℚ))
  plate_cache : ℤ → Option CacheEntry

/-- Every cache entry holds a nonempty text different from
`"Unknown"` (true of every reachable reader state: entries are only ever
written with nonempty cleaned texts). -/
def CacheInv (st : ALPRState Img) : Prop :=
  ∀ i e, st.plate_cache i = some e → e.text ≠ "" ∧ e.text ≠ "Unknown"

/-- Trivial image operations on a one-point image type, for concrete
runs: every crop is the whole (nonempty, size-1) image. -/
def unitOps : ImgOps Unit :=
  ⟨fun _ => 1, fun _ _ => (), fun _ => ()⟩

/-- Concrete reader state: plate model loaded but finding no candidate
boxes, OCR engine initialized but reading no text, empty cache. -/
def alprNoPlates : ALPRState Unit :=
  ⟨true, fun _ => [], some (fun _ => []), fun _ => none⟩

/-- Concrete reader state: plate model loaded and returning one
candidate box, OCR engine failed to initialize, empty cache. -/
def alprNoReader : ALPRState Unit :=
  ⟨true, fun _ => [(0, 0, 1, 1)], none, fun _ => none⟩

/-- Concrete reader state: no plate model and no OCR engine. -/
def alprNothing : ALPRState Unit :=
  ⟨false, fun _ => [], none, fun _ => none⟩

/-- Concrete reader state: no plate model, OCR engine reading
`("ABCDE1", 1)` from every image, empty cache. -/
def alprFallbackOnly : ALPRState Unit :=
  ⟨false, fun _ => [], some (fun _ => [("ABCDE1", 1)]), fun _ => none⟩

/-- Concrete reader state: plate model loaded but yielding no candidate
boxes, OCR engine reading `("ABCDE1", 1)` from every image, empty
cache (success arrives through the fallback stage). -/
def alprModelFallback : ALPRState Unit :=
  ⟨true, fun _ => [], some (fun _ => [("ABCDE1", 1)]), fun _ => none⟩

/-- `alprModelFallback` after its first successful read was cached. -/
def alprModelFallbackCached : ALPRState Unit :=
  ⟨true, fun _ => [], some (fun _ => [("ABCDE1", 1)]),
    Function.update (fun _ => none) 1 (some ⟨"ABCDE1", 0⟩)⟩

/-- Characters kept by the `[^A-Z0-9]` regex of `_clean_plate_text`. -/
def isPlateChar (c : Char) : Bool :=
  ('A' ≤ c && c ≤ 'Z') || ('0' ≤ c && c ≤ '9')

/-- `LicensePlateReader._clean_plate_text`: uppercase, then strip every
character outside `A-Z0-9`.  Working on the character list,
`(s.toUpper).data = s.data.map Char.toUpper` (plate strings are ASCII,
where Python's `str.upper` and `Char.toUpper` agree). -/
def clean_plate_text (s : String) : String :=
  ⟨(s.data.map Char.toUpper).filter isPlateChar⟩

/-- The best-candidate accumulator of `_fallback_ocr` (alpr.py lines
124-129): keep the highest-confidence candidate whose cleaned text has
at least 5 characters. -/
def pickCandidate (acc : Option String × ℚ) (tc : String × ℚ) : Option String × ℚ :=
  let cleaned := clean_plate_text tc.1
  if 5 ≤ cleaned.length ∧ acc.2 < tc.2 then (some cleaned, tc.2) else acc

/-- `LicensePlateReader._fallback_ocr` (alpr.py lines 105-135), returning
the result together with the number of OCR-engine invocations.  The
`track_id`/`now` parameters of the source are used only for logging and
are dropped.  It never raises and never touches the cache. -/
def _fallback_ocr (ops : ImgOps Img) (st : ALPRState Img) (vehicle_frame : Img) :
    Option String × ℕ :=
  match st.reader with
  | none => (none, 0)
  | some readtext =>
      let bottom_half := ops.cropBottom vehicle_frame
      if ops.size bottom_half = 0 then (none, 0)
      else
        let ocr_results := readtext bottom_half
        let best := ocr_results.foldl pickCandidate ((none : Option String), (0 : ℚ))
        (best.1, 1)

/-- The plate-candidate loop of `detect_and_read` (alpr.py lines 72-90):
crop each candidate box, skip empty crops, OCR the rest, accept the
first read whose confidence exceeds 0.3 (cleaned), and continue
otherwise.  When the EasyOCR reader failed to initialize,
`self.reader.readtext` is an attribute access on `None` and raises. -/
def scanBoxes (ops : ImgOps Img) (reader : Option (Img → List (String × ℚ)))
    (vehicle_frame : Img) :
    List (ℤ × ℤ × ℤ × ℤ) → ℕ → Except Unit (Option String × ℕ)
  | [], calls => .ok (none, calls)
  | box :: rest, calls =>
      let plate_crop := ops.cropBox vehicle_frame box
      if ops.size plate_crop = 0 then scanBoxes ops reader vehicle_frame rest calls
      else
        match reader with
        | none => .error ()
        | some readtext =>
            match readtext plate_crop with
            | [] => scanBoxes ops reader vehicle_frame rest (calls + 1)
            | (text, confidence) :: _ =>
                if 0.3 < confidence then .ok (some (clean_plate_text text), calls + 1)
                else scanBoxes ops reader vehicle_frame rest (calls + 1)

/-- The recognition attempt of `detect_and_read` (alpr.py lines 63-103),
reached when no cache entry short-circuits the call: fall back to plain
OCR when the specialized model is absent (returning directly, without a
cache write), otherwise scan the model's candidate boxes, fall back when
that yields nothing usable, cache a truthy result, and return it or the
`"Scanning..."` sentinel.  The result carries the updated state, the
number of plate-model invocations and the number of OCR invocations. -/
def detect_attempt (ops : ImgOps Img) (st : ALPRState Img) (vehicle_frame : Img)
    (track_id : ℤ) (now : ℚ) :
    Except Unit (Option String × ALPRState Img × ℕ × ℕ) :=
  if st.model_loaded = false then
    let fb := _fallback_ocr ops st vehicle_frame
    .ok (fb.1, st, 0, fb.2)
  else
    match scanBoxes ops st.reader vehicle_frame (st.plate_model vehicle_frame) 0 with
    | .error e => .error e
    | .ok (best0, n0) =>
        let fb :=
          if best0 = none ∨ best0 = some "" ∨ best0 = some "Scanning..." then
            let f := _fallback_ocr ops st vehicle_frame
            (f.1, n0 + f.2)
          else (best0, n0)
        let best_plate_text := fb.1
        let st1 : ALPRState Img :=
          match best_plate_text with
          | some s =>
              if s ≠ "" then
                { st with plate_cache :=
                    Function.update st.plate_cache track_id (some ⟨s, now⟩) }
              else st
          | none => st
        let ret : Option String :=
          match best_plate_text with
          | some s => if s ≠ "" then some s else some "Scanning..."
          | none => some "Scanning..."
        .ok (ret, st1, 1, fb.2)

/-- `LicensePlateReader.detect_and_read` (alpr.py lines 43-103): return a
cached resolved text immediately, throttle unresolved entries attempted
less than 2 seconds ago, and otherwise run `detect_attempt`. -/
def detect_and_read (ops : ImgOps Img) (st : ALPRState Img) (vehicle_frame : Img)
    (track_id : ℤ) (now : ℚ) :
    Except Unit (Option String × ALPRState Img × ℕ × ℕ) :=
  match st.plate_cache track_id with
  | some data =>
      if data.text ≠ "" ∧ data.text ≠ "Unknown" then .ok (some data.text, st, 0, 0)
      else if now - data.last_attempt < 2 then .ok (some data.text, st, 0, 0)
      else detect_attempt ops st vehicle_frame track_id now
  | none => detect_attempt ops st vehicle_frame track_id now

/-! ## VideoProcessor.process_frame_data (src/processor.py lines 50-76)

Only the per-tracked-box loop carries core state; frame decoding, the
detector call and the drawing/encoding of annotations are external I/O
and do not touch the tracker or the plate cache. -/

/-- One tracked box produced by the detector/tracker for a frame. -/
structure BoxObs where
  x1 : ℤ
  y1 : ℤ
  x2 : ℤ
  y2 : ℤ
  track_id : ℤ
  conf : ℚ
  cls_id : ℤ
deriving DecidableEq

/-- One detection record appended to `detections`. -/
structure Record where
  track_id : ℤ
  vehicle_type : String
  confidence : ℚ
  box_coordinates : ℤ × ℤ × ℤ × ℤ
  license_plate : Option String
  speed : ℚ
deriving DecidableEq

/-- The mutable core state owned by the processor's collaborators. -/
structure ProcState (Img : Type) where
  tracker : Tracker
  alpr : ALPRState Img

/-- Per-frame environment: image operations, the abstract numpy norm,
`get_real_world_pos` (the cv2 homography), the `names` class-id map, the
frame rate and the current wall-clock time. -/
structure ProcEnv (Img : Type) where
  ops : ImgOps Img
  norm2 : ℚ × ℚ → ℚ
  ground : ℚ × ℚ → ℚ × ℚ
  names : ℤ → String
  fps : ℚ
  now : ℚ

/-- The body of the per-box loop of `process_frame_data` (processor.py
lines 50-76): estimate the speed from the bottom-center point, crop the
vehicle, run ALPR only when the crop is non-empty, keep the plate text
only when it is truthy and not the `"Scanning..."` sentinel, and emit
the detection record. -/
def process_box (env : ProcEnv Img) (frame : Img) (frame_number : ℤ)
    (S : ProcState Img) (b : BoxObs) : Except Unit (Record × ProcState Img) :=
  let bottom_center : ℤ × ℤ := ((b.x1 + b.x2) / 2, b.y2)
  let sp := estimate_speed env.norm2 S.tracker
    ⟨b.track_id, env.ground ((bottom_center.1 : ℚ), (bottom_center.2 : ℚ)),
      frame_number, env.fps⟩
  let vehicle_crop := env.ops.cropBox frame (b.x1, b.y1, b.x2, b.y2)
  if 0 < env.ops.size vehicle_crop then
    match detect_and_read env.ops S.alpr vehicle_crop b.track_id env.now with
    | .error e => .error e
    | .ok (read_plate, alpr1, _, _) =>
        let plate_text : Option String :=
          match read_plate with
          | some s => if s ≠ "" ∧ s ≠ "Scanning..." then some s else none
          | none => none
        .ok (⟨b.track_id, env.names b.cls_id, b.conf, (b.x1, b.y1, b.x2, b.y2),
                plate_text, sp.1⟩,
             ⟨sp.2, alpr1⟩)
  else
    .ok (⟨b.track_id, env.names b.cls_id, b.conf, (b.x1, b.y1, b.x2, b.y2),
            none, sp.1⟩,
         ⟨sp.2, S.alpr⟩)

/-- The per-frame loop over tracked boxes; an exception raised while
processing a box propagates out of `process_frame_data`, discarding the
records collected so far. -/
def process_boxes (env : ProcEnv Img) (frame : Img) (frame_number : ℤ)
    (S : ProcState Img) :
    List BoxObs → Except Unit (List Record × ProcState Img)
  | [] => .ok ([], S)
  | b :: rest =>
      match process_box env frame frame_number S b with
      | .error e => .error e
      | .ok (r, S1) =>
          match process_boxes env frame frame_number S1 rest with
          | .error e => .error e
          | .ok (rs, S2) => .ok (r :: rs, S2)

/-- Image operations whose crops are always empty (size 0), for
degenerate-crop runs. -/
def zeroOps : ImgOps Unit :=
  ⟨fun _ => 0, fun _ _ => (), fun _ => ()⟩

/-- Concrete processor environment over one-point images: axis-aligned
norm, constant ground position, class name `"car"`, 30 fps. -/
def procEnvU : ProcEnv Unit :=
  ⟨unitOps, axisNorm, fun _ => (0, 0), fun _ => "car", 30, 0⟩

/-- Concrete processor environment whose crops are all degenerate. -/
def procEnvZero : ProcEnv Unit :=
  ⟨zeroOps, axisNorm, fun _ => (0, 0), fun _ => "car", 30, 0⟩

/-! ## General lemmas -/

/-- On an axis-aligned vector, `axisNorm` is the genuine Euclidean norm:
it is nonnegative and its square is the sum of the squared coordinates. -/
theorem axisNorm_eq_euclidean (v : ℚ × ℚ) (h : v.1 = 0 ∨ v.2 = 0) :
    0 ≤ axisNorm v ∧ axisNorm v ^ 2 = v.1 ^ 2 + v.2 ^ 2 := by
  constructor
  · unfold axisNorm; positivity
  · rcases h with h | h <;> simp [axisNorm, h, sq_abs]

/-! ### Branch lemmas for `estimate_speed` -/

/-- Unseen track: a baseline entry is created and 0 is returned. -/
theorem estimate_speed_not_seen (norm2 : ℚ × ℚ → ℚ) (tracker : Tracker) (c : Call)
    (h : tracker c.track_id = none) :
    estimate_speed norm2 tracker c =
      (0, Function.update tracker c.track_id
            (some ⟨c.frame, c.ground_pos, [], 0, 0, 0⟩)) := by
  unfold estimate_speed
  rw [h]

/-- Duplicate or non-monotonic frame: early return, nothing mutated. -/
theorem estimate_speed_early (norm2 : ℚ × ℚ → ℚ) (tracker : Tracker) (c : Call)
    (d : TrackData) (h : tracker c.track_id = some d)
    (hle : c.frame - d.last_frame ≤ 0) :
    estimate_speed norm2 tracker c = (d.current_speed, tracker) := by
  unfold estimate_speed
  rw [h]
  simp only [if_pos hle]

/-- Rejected sample: only `last_pos`/`last_frame` advance. -/
theorem estimate_speed_rejected (norm2 : ℚ × ℚ → ℚ) (tracker : Tracker) (c : Call)
    (d : TrackData) (h : tracker c.track_id = some d)
    (hpos : 0 < c.frame - d.last_frame)
    (hrej : ¬ (5 < instSpeed norm2 d.last_pos c.ground_pos (c.frame - d.last_frame) c.fps ∧
               instSpeed norm2 d.last_pos c.ground_pos (c.frame - d.last_frame) c.fps < 220)) :
    estimate_speed norm2 tracker c =
      (if d.stable_frames < 15 ∨ d.hits < 8 then 0 else d.current_speed,
       Function.update tracker c.track_id
         (some ⟨c.frame, c.ground_pos, d.speed_history, d.current_speed,
                d.stable_frames, d.hits⟩)) := by
  unfold estimate_speed
  rw [h]
  simp only [if_neg (not_le.mpr hpos), if_neg hrej]

/-- Accepted sample: history, smoothing, counters and pose all update. -/
theorem estimate_speed_accepted (norm2 : ℚ × ℚ → ℚ) (tracker : Tracker) (c : Call)
    (d : TrackData) (h : tracker c.track_id = some d)
    (hpos : 0 < c.frame - d.last_frame)
    (hacc : 5 < instSpeed norm2 d.last_pos c.ground_pos (c.frame - d.last_frame) c.fps ∧
            instSpeed norm2 d.last_pos c.ground_pos (c.frame - d.last_frame) c.fps < 220) :
    estimate_speed norm2 tracker c =
      (let hist := newHistory d
         (instSpeed norm2 d.last_pos c.ground_pos (c.frame - d.last_frame) c.fps)
       let d2 : TrackData :=
         ⟨c.frame, c.ground_pos, hist, smoothedSpeed hist,
          d.stable_frames + (c.frame - d.last_frame), d.hits + 1⟩
       (if d2.stable_frames < 15 ∨ d2.hits < 8 then 0 else d2.current_speed,
        Function.update tracker c.track_id (some d2))) := by
  unfold estimate_speed
  rw [h]
  simp only [if_neg (not_le.mpr hpos), if_pos hacc, newHistory]

/-- A Python slice `l[k:k+n]` (`drop` then `take`) enumerated index-wise. -/
theorem take_drop_eq_map_range (l : List ℚ) (k n : ℕ) (h : k + n ≤ l.length) :
    (l.drop k).take n = (List.range n).map (fun i => l.getD (k + i) 0) := by
  apply List.ext_getElem
  · simp only [List.length_take, List.length_drop, List.length_map, List.length_range]
    omega
  · intro i h1 h2
    have hki : k + i < l.length := by
      simp only [List.length_take, List.length_drop] at h1
      omega
    rw [List.getElem_take, List.getElem_drop, List.getElem_map, List.getElem_range,
      List.getD_eq_getElem l 0 hki]

/-- The smoothing the source computes agrees with the spec's description
of it. -/
theorem smoothedSpeed_eq_spec (hist : List ℚ) :
    smoothedSpeed hist = spec_smoothed hist := by
  unfold smoothedSpeed spec_smoothed
  by_cases h : 15 < (hist.insertionSort (· ≤ ·)).length
  · have hle : (hist.insertionSort (· ≤ ·)).length / 2 - 5 + 10 ≤
        (hist.insertionSort (· ≤ ·)).length := by omega
    simp only [gt_iff_lt, if_pos h]
    rw [take_drop_eq_map_range _ _ _ hle]
  · simp only [gt_iff_lt, if_neg h]

/-! ### Lower bounds on the smoothed speed -/

/-- The sum of a list whose entries all exceed 5 exceeds 5 times its
length. -/
theorem five_mul_length_lt_sum (l : List ℚ) (hne : l ≠ [])
    (h : ∀ x ∈ l, 5 < x) : 5 * l.length < l.sum := by
  induction l with
  | nil => simp at hne
  | cons a t ih =>
    rcases eq_or_ne t [] with rfl | hte
    · simpa using h a (by simp)
    · have ht := ih hte (fun x hx => h x (List.mem_cons_of_mem _ hx))
      have ha := h a (List.mem_cons_self a t)
      simp only [List.sum_cons, List.length_cons]
      push_cast
      linarith

/-- The mean of a nonempty list with all entries above 5 is above 5. -/
theorem five_lt_mean (l : List ℚ) (hne : l ≠ []) (h : ∀ x ∈ l, 5 < x) :
    5 < l.sum / l.length := by
  have hlen : (0 : ℚ) < l.length := by
    exact_mod_cast List.length_pos.mpr hne
  rw [lt_div_iff₀ hlen]
  have := five_mul_length_lt_sum l hne h
  linarith

/-- `pyRound` never rounds below the floor. -/
theorem floor_le_pyRound (x : ℚ) : ⌊x⌋ ≤ pyRound x := by
  simp only [pyRound]
  split_ifs <;> omega

/-- Rounding to one decimal keeps a value above 5 at least at 5. -/
theorem five_le_round1 (x : ℚ) (hx : 5 < x) : 5 ≤ round1 x := by
  have h50 : (50 : ℤ) ≤ ⌊10 * x⌋ := by
    apply Int.le_floor.mpr
    push_cast
    linarith
  have h50' : (50 : ℤ) ≤ pyRound (10 * x) := le_trans h50 (floor_le_pyRound _)
  unfold round1
  rw [le_div_iff₀ (by norm_num : (0:ℚ) < 10)]
  exact_mod_cast h50'

/-- Any history whose entries all lie in the accepted band (5, 220)
smoothes to a value of at least 5. -/
theorem five_le_smoothedSpeed (hist : List ℚ) (hne : hist ≠ [])
    (h : ∀ x ∈ hist, 5 < x) : 5 ≤ smoothedSpeed hist := by
  unfold smoothedSpeed
  have hsorted : ∀ x ∈ hist.insertionSort (· ≤ ·), 5 < x := by
    intro x hx
    exact h x ((List.mem_insertionSort _).mp hx)
  have hlen : (hist.insertionSort (· ≤ ·)).length = hist.length :=
    List.length_insertionSort _ _
  refine le_min (five_le_round1 _ ?_) (by norm_num)
  by_cases hbig : (hist.insertionSort (· ≤ ·)).length > 15
  · simp only [if_pos hbig]
    set sorted := hist.insertionSort (· ≤ ·) with hs
    set sl := (sorted.drop (sorted.length / 2 - 5)).take 10 with hsl
    have hlen10 : sl.length = 10 := by
      rw [hsl]
      simp only [List.length_take, List.length_drop]
      omega
    have hmem : ∀ x ∈ sl, 5 < x := by
      intro x hx
      exact hsorted x (List.drop_subset _ _ (List.take_subset _ _ hx))
    have hslne : sl ≠ [] := by
      intro h0
      rw [h0] at hlen10
      simp at hlen10
    have := five_lt_mean sl hslne hmem
    rw [hlen10] at this
    simpa using this
  · simp only [if_neg hbig]
    apply five_lt_mean _ _ hsorted
    refine List.length_pos.mp ?_
    rw [hlen]
    exact List.length_pos.mpr hne


/-- The smoothing clamp: the stored speed never exceeds 160. -/
theorem smoothedSpeed_le_160 (hist : List ℚ) : smoothedSpeed hist ≤ 160 := by
  unfold smoothedSpeed
  exact min_le_right _ _

/-- The reported value of a past-the-early-return call is the post-state
gate applied to the updated track entry. -/
theorem estimate_speed_gated_ret (norm2 : ℚ × ℚ → ℚ) (tracker : Tracker) (c : Call)
    (d d' : TrackData) (hd : tracker c.track_id = some d)
    (hpos : 0 < c.frame - d.last_frame)
    (hd' : (estimate_speed norm2 tracker c).2 c.track_id = some d') :
    (estimate_speed norm2 tracker c).1 =
      if d'.stable_frames < 15 ∨ d'.hits < 8 then 0 else d'.current_speed := by
  by_cases hacc : 5 < instSpeed norm2 d.last_pos c.ground_pos (c.frame - d.last_frame) c.fps ∧
      instSpeed norm2 d.last_pos c.ground_pos (c.frame - d.last_frame) c.fps < 220
  · rw [estimate_speed_accepted norm2 tracker c d hd hpos hacc] at hd' ⊢
    simp only [Function.update_same, Option.some.injEq] at hd'
    rw [← hd']
  · rw [estimate_speed_rejected norm2 tracker c d hd hpos hacc] at hd' ⊢
    simp only [Function.update_same, Option.some.injEq] at hd'
    rw [← hd']

/-! ### Invariants of `estimate_speed` -/

/-- State component of the early return. -/
theorem estimate_speed_early_snd (norm2 : ℚ × ℚ → ℚ) (tracker : Tracker) (c : Call)
    (d : TrackData) (hd : tracker c.track_id = some d)
    (hle : c.frame - d.last_frame ≤ 0) :
    (estimate_speed norm2 tracker c).2 = tracker :=
  congrArg Prod.snd (estimate_speed_early norm2 tracker c d hd hle)

/-- State component after a rejected sample. -/
theorem estimate_speed_rejected_snd (norm2 : ℚ × ℚ → ℚ) (tracker : Tracker) (c : Call)
    (d : TrackData) (hd : tracker c.track_id = some d)
    (hpos : 0 < c.frame - d.last_frame)
    (hrej : ¬ (5 < instSpeed norm2 d.last_pos c.ground_pos (c.frame - d.last_frame) c.fps ∧
               instSpeed norm2 d.last_pos c.ground_pos (c.frame - d.last_frame) c.fps < 220)) :
    (estimate_speed norm2 tracker c).2 =
      Function.update tracker c.track_id
        (some ⟨c.frame, c.ground_pos, d.speed_history, d.current_speed,
              d.stable_frames, d.hits⟩) := by
  rw [estimate_speed_rejected norm2 tracker c d hd hpos hrej]

/-- State component after an accepted sample. -/
theorem estimate_speed_accepted_snd (norm2 : ℚ × ℚ → ℚ) (tracker : Tracker) (c : Call)
    (d : TrackData) (hd : tracker c.track_id = some d)
    (hpos : 0 < c.frame - d.last_frame)
    (hacc : 5 < instSpeed norm2 d.last_pos c.ground_pos (c.frame - d.last_frame) c.fps ∧
            instSpeed norm2 d.last_pos c.ground_pos (c.frame - d.last_frame) c.fps < 220) :
    (estimate_speed norm2 tracker c).2 =
      Function.update tracker c.track_id
        (some ⟨c.frame, c.ground_pos,
          newHistory d (instSpeed norm2 d.last_pos c.ground_pos (c.frame - d.last_frame) c.fps),
          smoothedSpeed (newHistory d (instSpeed norm2 d.last_pos c.ground_pos (c.frame - d.last_frame) c.fps)),
          d.stable_frames + (c.frame - d.last_frame), d.hits + 1⟩) := by
  rw [estimate_speed_accepted norm2 tracker c d hd hpos hacc]

/-- Entries of other tracks are untouched by a call. -/
theorem estimate_speed_other (norm2 : ℚ × ℚ → ℚ) (tracker : Tracker) (c : Call)
    (i : ℤ) (hi : i ≠ c.track_id) :
    (estimate_speed norm2 tracker c).2 i = tracker i := by
  unfold estimate_speed
  cases htr : tracker c.track_id with
  | none => simp [Function.update_noteq hi]
  | some d =>
    by_cases hle : c.frame - d.last_frame ≤ 0
    · simp [hle]
    · simp [hle, Function.update_noteq hi]

/-- An existing track entry still exists after any call on it. -/
theorem estimate_speed_self (norm2 : ℚ × ℚ → ℚ) (tracker : Tracker) (c : Call)
    (d : TrackData) (hd : tracker c.track_id = some d) :
    ∃ d', (estimate_speed norm2 tracker c).2 c.track_id = some d' := by
  rcases le_or_lt (c.frame - d.last_frame) 0 with hle | hpos
  · rw [estimate_speed_early_snd norm2 tracker c d hd hle]
    exact ⟨d, hd⟩
  · by_cases hacc : 5 < instSpeed norm2 d.last_pos c.ground_pos (c.frame - d.last_frame) c.fps ∧
        instSpeed norm2 d.last_pos c.ground_pos (c.frame - d.last_frame) c.fps < 220
    · rw [estimate_speed_accepted_snd norm2 tracker c d hd hpos hacc]
      exact ⟨_, Function.update_same _ _ _⟩
    · rw [estimate_speed_rejected_snd norm2 tracker c d hd hpos hacc]
      exact ⟨_, Function.update_same _ _ _⟩

/-- A sample ending up in the new history was either already stored or
is the freshly accepted instantaneous speed. -/
theorem mem_newHistory (d : TrackData) (inst x : ℚ)
    (hx : x ∈ newHistory d inst) : x ∈ d.speed_history ∨ x = inst := by
  have hx' : x ∈ d.speed_history ++ [inst] := by
    simp only [newHistory] at hx
    split_ifs at hx
    · exact (List.tail_sublist _).subset hx
    · exact hx
  simpa using List.mem_append.mp hx'

/-- The trimmed history after an accepted sample is never empty. -/
theorem newHistory_ne_nil (d : TrackData) (inst : ℚ) : newHistory d inst ≠ [] := by
  simp only [newHistory]
  split_ifs with h
  · refine List.length_pos.mp ?_
    rw [List.length_tail]
    simp only [List.length_append, List.length_singleton] at h ⊢
    omega
  · simp

/-- A call preserves the history invariant. -/
theorem estimate_speed_histOK (norm2 : ℚ × ℚ → ℚ) (tracker : Tracker) (c : Call)
    (h : TrackerOK tracker) : TrackerOK (estimate_speed norm2 tracker c).2 := by
  intro i d' hd'
  by_cases hi : i = c.track_id
  · subst hi
    cases htr : tracker c.track_id with
    | none =>
        rw [estimate_speed_not_seen norm2 tracker c htr] at hd'
        simp only [Function.update_same, Option.some.injEq] at hd'
        intro x hx
        rw [← hd'] at hx
        simp at hx
    | some d =>
        rcases le_or_lt (c.frame - d.last_frame) 0 with hle | hpos
        · rw [estimate_speed_early_snd norm2 tracker c d htr hle] at hd'
          exact h c.track_id d' hd'
        · by_cases hacc : 5 < instSpeed norm2 d.last_pos c.ground_pos (c.frame - d.last_frame) c.fps ∧
              instSpeed norm2 d.last_pos c.ground_pos (c.frame - d.last_frame) c.fps < 220
          · rw [estimate_speed_accepted_snd norm2 tracker c d htr hpos hacc] at hd'
            rw [Function.update_same] at hd'
            cases hd'
            intro x hx
            rcases mem_newHistory d _ x hx with hmem | rfl
            · exact h c.track_id d htr x hmem
            · exact hacc
          · rw [estimate_speed_rejected_snd norm2 tracker c d htr hpos hacc] at hd'
            rw [Function.update_same] at hd'
            cases hd'
            intro x hx
            exact h c.track_id d htr x hx
  · rw [estimate_speed_other norm2 tracker c i hi] at hd'
    exact h i d' hd'

/-- Within one call the two stabilization counters never decrease. -/
theorem estimate_speed_counters_mono (norm2 : ℚ × ℚ → ℚ) (tracker : Tracker)
    (c : Call) (d d' : TrackData) (hd : tracker c.track_id = some d)
    (hd' : (estimate_speed norm2 tracker c).2 c.track_id = some d') :
    d.stable_frames ≤ d'.stable_frames ∧ d.hits ≤ d'.hits := by
  rcases le_or_lt (c.frame - d.last_frame) 0 with hle | hpos
  · rw [estimate_speed_early_snd norm2 tracker c d hd hle, hd] at hd'
    cases hd'
    exact ⟨le_refl _, le_refl _⟩
  · by_cases hacc : 5 < instSpeed norm2 d.last_pos c.ground_pos (c.frame - d.last_frame) c.fps ∧
        instSpeed norm2 d.last_pos c.ground_pos (c.frame - d.last_frame) c.fps < 220
    · rw [estimate_speed_accepted_snd norm2 tracker c d hd hpos hacc,
        Function.update_same] at hd'
      cases hd'
      constructor
      · simp only
        omega
      · simp only
        omega
    · rw [estimate_speed_rejected_snd norm2 tracker c d hd hpos hacc,
        Function.update_same] at hd'
      cases hd'
      exact ⟨le_refl _, le_refl _⟩

/-- A call preserves an open gate on any track (given the history
invariant, the freshly smoothed speed stays at least 5). -/
theorem estimate_speed_gate_preserved (norm2 : ℚ × ℚ → ℚ) (tracker : Tracker)
    (c : Call) (i : ℤ) (d d' : TrackData) (hOK : TrackerOK tracker)
    (hd : tracker i = some d) (hgate : GateOpen d)
    (hd' : (estimate_speed norm2 tracker c).2 i = some d') : GateOpen d' := by
  obtain ⟨hg1, hg2, hg3⟩ := hgate
  by_cases hi : i = c.track_id
  · subst hi
    rcases le_or_lt (c.frame - d.last_frame) 0 with hle | hpos
    · rw [estimate_speed_early_snd norm2 tracker c d hd hle, hd] at hd'
      cases hd'
      exact ⟨hg1, hg2, hg3⟩
    · by_cases hacc : 5 < instSpeed norm2 d.last_pos c.ground_pos (c.frame - d.last_frame) c.fps ∧
          instSpeed norm2 d.last_pos c.ground_pos (c.frame - d.last_frame) c.fps < 220
      · rw [estimate_speed_accepted_snd norm2 tracker c d hd hpos hacc,
          Function.update_same] at hd'
        cases hd'
        have h5 : 5 ≤ smoothedSpeed (newHistory d
            (instSpeed norm2 d.last_pos c.ground_pos (c.frame - d.last_frame) c.fps)) := by
          apply five_le_smoothedSpeed _ (newHistory_ne_nil d _)
          intro x hx
          rcases mem_newHistory d _ x hx with hmem | rfl
          · exact (hOK c.track_id d hd x hmem).1
          · exact hacc.1
        refine ⟨?_, ?_, ?_⟩
        · simp only
          omega
        · simp only
          omega
        · simp only
          intro h0
          rw [h0] at h5
          norm_num at h5
      · rw [estimate_speed_rejected_snd norm2 tracker c d hd hpos hacc,
          Function.update_same] at hd'
        cases hd'
        exact ⟨hg1, hg2, hg3⟩
  · rw [estimate_speed_other norm2 tracker c i hi, hd] at hd'
    cases hd'
    exact ⟨hg1, hg2, hg3⟩

/-- With an open gate on the called track, a call reports a nonzero
speed. -/
theorem estimate_speed_ret_gate (norm2 : ℚ × ℚ → ℚ) (tracker : Tracker)
    (c : Call) (d : TrackData) (hOK : TrackerOK tracker)
    (hd : tracker c.track_id = some d) (hgate : GateOpen d) :
    (estimate_speed norm2 tracker c).1 ≠ 0 := by
  rcases le_or_lt (c.frame - d.last_frame) 0 with hle | hpos
  · rw [estimate_speed_early norm2 tracker c d hd hle]
    exact hgate.2.2
  · obtain ⟨d', hd'⟩ := estimate_speed_self norm2 tracker c d hd
    have hg' := estimate_speed_gate_preserved norm2 tracker c c.track_id d d' hOK hd hgate hd'
    obtain ⟨hg1, hg2, hg3⟩ := hg'
    rw [estimate_speed_gated_ret norm2 tracker c d d' hd hpos hd']
    rw [if_neg (by omega)]
    exact hg3

/-- A past-the-early-return call that reports a nonzero speed leaves the
track with an open gate. -/
theorem estimate_speed_trigger (norm2 : ℚ × ℚ → ℚ) (tracker : Tracker)
    (c : Call) (d : TrackData) (hd : tracker c.track_id = some d)
    (hpos : 0 < c.frame - d.last_frame)
    (hnz : (estimate_speed norm2 tracker c).1 ≠ 0) :
    ∃ d', (estimate_speed norm2 tracker c).2 c.track_id = some d' ∧ GateOpen d' := by
  obtain ⟨d', hd'⟩ := estimate_speed_self norm2 tracker c d hd
  have hret := estimate_speed_gated_ret norm2 tracker c d d' hd hpos hd'
  by_cases hgate : d'.stable_frames < 15 ∨ d'.hits < 8
  · rw [hret, if_pos hgate] at hnz
    exact absurd rfl hnz
  · push_neg at hgate
    rw [hret, if_neg (by omega)] at hnz
    exact ⟨d', hd', hgate.1, hgate.2, hnz⟩

/-- Folding calls preserves the history invariant. -/
theorem runCalls_histOK (norm2 : ℚ × ℚ → ℚ) (tr : Tracker) (cs : List Call)
    (h : TrackerOK tr) : TrackerOK (runCalls norm2 tr cs) := by
  induction cs generalizing tr with
  | nil => exact h
  | cons c cs ih => exact ih _ (estimate_speed_histOK norm2 tr c h)

/-- An open gate survives any further sequence of calls. -/
theorem runCalls_gate (norm2 : ℚ × ℚ → ℚ) (tr : Tracker) (cs : List Call)
    (i : ℤ) (d : TrackData) (hOK : TrackerOK tr) (hd : tr i = some d)
    (hg : GateOpen d) :
    ∃ d', runCalls norm2 tr cs i = some d' ∧ GateOpen d' := by
  induction cs generalizing tr d with
  | nil => exact ⟨d, hd, hg⟩
  | cons c cs ih =>
    have hstep : ∃ d₁, (estimate_speed norm2 tr c).2 i = some d₁ := by
      by_cases hi : i = c.track_id
      · subst hi
        exact estimate_speed_self norm2 tr c d hd
      · exact ⟨d, by rw [estimate_speed_other norm2 tr c i hi]; exact hd⟩
    obtain ⟨d₁, hd₁⟩ := hstep
    have hg₁ := estimate_speed_gate_preserved norm2 tr c i d d₁ hOK hd hg hd₁
    exact ih _ _ (estimate_speed_histOK norm2 tr c hOK) hd₁ hg₁

/-- Splitting a run of calls. -/
theorem runCalls_append (norm2 : ℚ × ℚ → ℚ) (tr : Tracker) (l₁ l₂ : List Call) :
    runCalls norm2 tr (l₁ ++ l₂) = runCalls norm2 (runCalls norm2 tr l₁) l₂ := by
  induction l₁ generalizing tr with
  | nil => rfl
  | cons c cs ih => exact ih _

/-- The empty tracker satisfies the history invariant. -/
theorem trackerOK_init : TrackerOK Tracker.init := by
  intro i d h
  simp [Tracker.init] at h

/-! ## Claims -/

/-- C6 (confirmed): for an already-seen track, a call whose frame index
is at most the stored `last_frame` returns the existing `current_speed`
and returns the tracker map itself, so every component of the track
state (history, pose, counters, smoothed speed) is unchanged. -/
theorem claim_C6_duplicate_frame (norm2 : ℚ × ℚ → ℚ) (tracker : Tracker)
    (c : Call) (d : TrackData) (hfps : 0 < c.fps)
    (hd : tracker c.track_id = some d) (hle : c.frame ≤ d.last_frame) :
    estimate_speed norm2 tracker c = (d.current_speed, tracker) :=
  estimate_speed_early norm2 tracker c d hd (by omega)

/-- Witness for C6: track 1 registered at frame 5 and re-observed at
frame 5 with a different position. -/
theorem claim_C6_witness :
    ((0 : ℚ) < 1 ∧
      (runCalls axisNorm Tracker.init [⟨1, (0, 0), 5, 1⟩]) 1 =
        some ⟨5, (0, 0), [], 0, 0, 0⟩ ∧ (5 : ℤ) ≤ 5) ∧
    estimate_speed axisNorm (runCalls axisNorm Tracker.init [⟨1, (0, 0), 5, 1⟩])
        ⟨1, (3, 4), 5, 1⟩ =
      (0, runCalls axisNorm Tracker.init [⟨1, (0, 0), 5, 1⟩]) :=
  ⟨⟨by norm_num,
    by simp [runCalls, estimate_speed, Tracker.init, Function.update],
    by norm_num⟩,
   claim_C6_duplicate_frame axisNorm _ ⟨1, (3, 4), 5, 1⟩ ⟨5, (0, 0), [], 0, 0, 0⟩
     (by norm_num)
     (by simp [runCalls, estimate_speed, Tracker.init, Function.update])
     (by norm_num)⟩

/-- C4 (confirmed): with `framesElapsed > 0`, a sample whose
instantaneous speed lies outside the open band (5, 220) is not appended
to `speed_history` and leaves `hits`, `stable_frames` and
`current_speed` untouched, while `last_pos` and `last_frame` still
advance to the new observation. -/
theorem claim_C4_rejected_outlier (norm2 : ℚ × ℚ → ℚ) (tracker : Tracker)
    (c : Call) (d : TrackData) (hfps : 0 < c.fps)
    (hd : tracker c.track_id = some d)
    (hpos : 0 < c.frame - d.last_frame)
    (hrej : ¬ (5 < instSpeed norm2 d.last_pos c.ground_pos (c.frame - d.last_frame) c.fps ∧
               instSpeed norm2 d.last_pos c.ground_pos (c.frame - d.last_frame) c.fps < 220)) :
    (estimate_speed norm2 tracker c).2 c.track_id =
      some ⟨c.frame, c.ground_pos, d.speed_history, d.current_speed,
            d.stable_frames, d.hits⟩ := by
  rw [estimate_speed_rejected norm2 tracker c d hd hpos hrej]
  simp

/-- Witness for C4: a motionless track (instantaneous speed 0) has its
pose advanced but history, counters and speed untouched. -/
theorem claim_C4_witness :
    ((0 : ℚ) < 1 ∧
      (runCalls axisNorm Tracker.init [⟨1, (0, 0), 0, 1⟩]) 1 =
        some ⟨0, (0, 0), [], 0, 0, 0⟩ ∧
      (0 : ℤ) < 1 - 0 ∧
      ¬ (5 < instSpeed axisNorm (0, 0) (0, 0) (1 - 0) 1 ∧
         instSpeed axisNorm (0, 0) (0, 0) (1 - 0) 1 < 220)) ∧
    (estimate_speed axisNorm (runCalls axisNorm Tracker.init [⟨1, (0, 0), 0, 1⟩])
        ⟨1, (0, 0), 1, 1⟩).2 1 =
      some ⟨1, (0, 0), [], 0, 0, 0⟩ :=
  ⟨⟨by norm_num,
    by simp [runCalls, estimate_speed, Tracker.init, Function.update],
    by norm_num,
    by norm_num [instSpeed, axisNorm]⟩,
   claim_C4_rejected_outlier axisNorm _ ⟨1, (0, 0), 1, 1⟩ ⟨0, (0, 0), [], 0, 0, 0⟩
     (by norm_num)
     (by simp [runCalls, estimate_speed, Tracker.init, Function.update])
     (by norm_num)
     (by norm_num [instSpeed, axisNorm])⟩

/-- C5 (confirmed): after an accepted sample, the stored `current_speed`
equals the spec's smoothing function of the stored `speed_history`
(sorted copy, central 10-sample mean past 15 entries, otherwise full
mean, rounded to one decimal, clamped at 160.0), and never exceeds
160. -/
theorem claim_C5_smoothing (norm2 : ℚ × ℚ → ℚ) (tracker : Tracker)
    (c : Call) (d : TrackData) (hfps : 0 < c.fps)
    (hd : tracker c.track_id = some d)
    (hpos : 0 < c.frame - d.last_frame)
    (hacc : 5 < instSpeed norm2 d.last_pos c.ground_pos (c.frame - d.last_frame) c.fps ∧
            instSpeed norm2 d.last_pos c.ground_pos (c.frame - d.last_frame) c.fps < 220) :
    ∃ d', (estimate_speed norm2 tracker c).2 c.track_id = some d' ∧
      d'.current_speed = spec_smoothed d'.speed_history ∧
      d'.current_speed ≤ 160 := by
  refine ⟨⟨c.frame, c.ground_pos,
      newHistory d (instSpeed norm2 d.last_pos c.ground_pos (c.frame - d.last_frame) c.fps),
      smoothedSpeed (newHistory d (instSpeed norm2 d.last_pos c.ground_pos (c.frame - d.last_frame) c.fps)),
      d.stable_frames + (c.frame - d.last_frame), d.hits + 1⟩, ?_, ?_, ?_⟩
  · rw [estimate_speed_accepted norm2 tracker c d hd hpos hacc]
    simp
  · exact smoothedSpeed_eq_spec _
  · exact smoothedSpeed_le_160 _

/-- Witness for C5: one accepted 72 km/h sample. -/
theorem claim_C5_witness :
    ((0 : ℚ) < 1 ∧
      (runCalls axisNorm Tracker.init [⟨1, (0, 0), 0, 1⟩]) 1 =
        some ⟨0, (0, 0), [], 0, 0, 0⟩ ∧
      (0 : ℤ) < 1 - 0 ∧
      (5 < instSpeed axisNorm (0, 0) (0, 20) (1 - 0) 1 ∧
       instSpeed axisNorm (0, 0) (0, 20) (1 - 0) 1 < 220)) ∧
    (∃ d', (estimate_speed axisNorm (runCalls axisNorm Tracker.init [⟨1, (0, 0), 0, 1⟩])
        ⟨1, (0, 20), 1, 1⟩).2 1 = some d' ∧
      d'.current_speed = spec_smoothed d'.speed_history ∧
      d'.current_speed ≤ 160) :=
  ⟨⟨by norm_num,
    by simp [runCalls, estimate_speed, Tracker.init, Function.update],
    by norm_num,
    by norm_num [instSpeed, axisNorm]⟩,
   claim_C5_smoothing axisNorm _ ⟨1, (0, 20), 1, 1⟩ ⟨0, (0, 0), [], 0, 0, 0⟩
     (by norm_num)
     (by simp [runCalls, estimate_speed, Tracker.init, Function.update])
     (by norm_num)
     (by norm_num [instSpeed, axisNorm])⟩

/-- C3 (amended): on every call that proceeds past the duplicate-frame
early return — a brand new track, or an observation with
`framesElapsed > 0` — the estimator reports 0 unless the post-update
state satisfies `stable_frames ≥ 15` and `hits ≥ 8`.  (The claim's
original universal form fails on the early-return path; see the
counterexample.) -/
theorem claim_C3_gate_amended (norm2 : ℚ × ℚ → ℚ) (tracker : Tracker) (c : Call)
    (hfps : 0 < c.fps) :
    (tracker c.track_id = none → (estimate_speed norm2 tracker c).1 = 0) ∧
    (∀ d, tracker c.track_id = some d → 0 < c.frame - d.last_frame →
      ∀ d', (estimate_speed norm2 tracker c).2 c.track_id = some d' →
        (d'.stable_frames < 15 ∨ d'.hits < 8) →
        (estimate_speed norm2 tracker c).1 = 0) := by
  constructor
  · intro h
    rw [estimate_speed_not_seen norm2 tracker c h]
  · intro d hd hpos d' hd' hgate
    rw [estimate_speed_gated_ret norm2 tracker c d d' hd hpos hd']
    exact if_pos hgate

/-- Witness for the amended C3: the first moving sample of a track is
accepted (72 km/h) yet reported as 0 because the stabilization gate
(`stable_frames ≥ 15`, `hits ≥ 8`) is not open. -/
theorem claim_C3_witness :
    ((0 : ℚ) < 1 ∧
      (runCalls axisNorm Tracker.init [⟨1, (0, 0), 0, 1⟩]) 1 =
        some ⟨0, (0, 0), [], 0, 0, 0⟩ ∧
      (0 : ℤ) < 1 - 0 ∧
      (estimate_speed axisNorm (runCalls axisNorm Tracker.init [⟨1, (0, 0), 0, 1⟩])
          ⟨1, (0, 20), 1, 1⟩).2 1 = some ⟨1, (0, 20), [72], 72, 1, 1⟩ ∧
      ((1 : ℤ) < 15 ∨ (1 : ℕ) < 8)) ∧
    (estimate_speed axisNorm (runCalls axisNorm Tracker.init [⟨1, (0, 0), 0, 1⟩])
        ⟨1, (0, 20), 1, 1⟩).1 = 0 :=
  ⟨⟨by norm_num,
    by simp [runCalls, estimate_speed, Tracker.init, Function.update],
    by norm_num,
    by norm_num [runCalls, estimate_speed, instSpeed, smoothedSpeed, round1, pyRound,
      axisNorm, Tracker.init, Function.update, List.insertionSort, List.orderedInsert],
    by norm_num⟩,
   (claim_C3_gate_amended axisNorm (runCalls axisNorm Tracker.init [⟨1, (0, 0), 0, 1⟩])
      ⟨1, (0, 20), 1, 1⟩ (by norm_num)).2
     ⟨0, (0, 0), [], 0, 0, 0⟩
     (by simp [runCalls, estimate_speed, Tracker.init, Function.update])
     (by norm_num)
     ⟨1, (0, 20), [72], 72, 1, 1⟩
     (by norm_num [runCalls, estimate_speed, instSpeed, smoothedSpeed, round1, pyRound,
        axisNorm, Tracker.init, Function.update, List.insertionSort, List.orderedInsert])
     (by norm_num)⟩

/-- Counterexample to C3 as stated: once track 1 holds one accepted
sample (`stable_frames = 1 < 15`, `hits = 1 < 8`, internally smoothed
`current_speed = 72`), a duplicate-frame observation returns 72 ≠ 0 even
though the stability gate is not satisfied. -/
theorem claim_C3_counterexample :
    (runCalls axisNorm Tracker.init [⟨1, (0, 0), 0, 1⟩, ⟨1, (0, 20), 1, 1⟩]) 1 =
      some ⟨1, (0, 20), [72], 72, 1, 1⟩ ∧
    (estimate_speed axisNorm
        (runCalls axisNorm Tracker.init [⟨1, (0, 0), 0, 1⟩, ⟨1, (0, 20), 1, 1⟩])
        ⟨1, (5, 5), 1, 1⟩).1 = 72 ∧
    (72 : ℚ) ≠ 0 := by
  refine ⟨?_, ?_, by norm_num⟩ <;>
    norm_num [runCalls, estimate_speed, instSpeed, smoothedSpeed, round1, pyRound,
      axisNorm, Tracker.init, Function.update, List.insertionSort, List.orderedInsert]

/-- C10 (amended): the stabilization counters never decrease across
calls; and once a call that proceeds past the duplicate-frame early
return (`framesElapsed > 0`) reports a nonzero speed, every subsequent
call for the same track id reports a nonzero speed.  (The original
claim, triggered by any nonzero return including the early-return path,
fails; see the counterexample.) -/
theorem claim_C10_gate_stays_open (norm2 : ℚ × ℚ → ℚ) (cs₁ cs₂ : List Call)
    (c c2 : Call) (d : TrackData)
    (hid : c2.track_id = c.track_id)
    (hd : runCalls norm2 Tracker.init cs₁ c.track_id = some d)
    (hpos : 0 < c.frame - d.last_frame)
    (hnz : (estimate_speed norm2 (runCalls norm2 Tracker.init cs₁) c).1 ≠ 0) :
    (∀ (tr : Tracker) (c₀ : Call) (e e' : TrackData),
       tr c₀.track_id = some e →
       (estimate_speed norm2 tr c₀).2 c₀.track_id = some e' →
       e.stable_frames ≤ e'.stable_frames ∧ e.hits ≤ e'.hits) ∧
    (estimate_speed norm2 (runCalls norm2 Tracker.init (cs₁ ++ c :: cs₂)) c2).1 ≠ 0 := by
  refine ⟨fun tr c₀ e e' he he' =>
    estimate_speed_counters_mono norm2 tr c₀ e e' he he', ?_⟩
  have hOK1 : TrackerOK (runCalls norm2 Tracker.init cs₁) :=
    runCalls_histOK norm2 _ cs₁ trackerOK_init
  obtain ⟨d', hd', hg'⟩ :=
    estimate_speed_trigger norm2 (runCalls norm2 Tracker.init cs₁) c d hd hpos hnz
  have hOK2 : TrackerOK (estimate_speed norm2 (runCalls norm2 Tracker.init cs₁) c).2 :=
    estimate_speed_histOK norm2 _ c hOK1
  obtain ⟨d2, hd2, hg2⟩ := runCalls_gate norm2 _ cs₂ c.track_id d' hOK2 hd' hg'
  have hOK3 : TrackerOK (runCalls norm2
      (estimate_speed norm2 (runCalls norm2 Tracker.init cs₁) c).2 cs₂) :=
    runCalls_histOK norm2 _ cs₂ hOK2
  have hrun : runCalls norm2 Tracker.init (cs₁ ++ c :: cs₂) =
      runCalls norm2 (estimate_speed norm2 (runCalls norm2 Tracker.init cs₁) c).2 cs₂ := by
    rw [runCalls_append]
    rfl
  rw [hrun]
  exact estimate_speed_ret_gate norm2 _ c2 d2 hOK3 (by rw [hid]; exact hd2) hg2

set_option maxHeartbeats 1600000 in
/-- Witness for the amended C10: after 8 accepted 36 km/h samples over
16 frames the gate opens and the call at frame 16 reports 36; the next
call still reports nonzero. -/
theorem claim_C10_witness :
    ((1 : ℤ) = 1 ∧
      runCalls axisNorm Tracker.init
          [⟨1, (0, 0), 0, 1⟩, ⟨1, (0, 20), 2, 1⟩, ⟨1, (0, 40), 4, 1⟩,
           ⟨1, (0, 60), 6, 1⟩, ⟨1, (0, 80), 8, 1⟩, ⟨1, (0, 100), 10, 1⟩,
           ⟨1, (0, 120), 12, 1⟩, ⟨1, (0, 140), 14, 1⟩] 1 =
        some ⟨14, (0, 140), [36, 36, 36, 36, 36, 36, 36], 36, 14, 7⟩ ∧
      (0 : ℤ) < 16 - 14 ∧
      (estimate_speed axisNorm
          (runCalls axisNorm Tracker.init
            [⟨1, (0, 0), 0, 1⟩, ⟨1, (0, 20), 2, 1⟩, ⟨1, (0, 40), 4, 1⟩,
             ⟨1, (0, 60), 6, 1⟩, ⟨1, (0, 80), 8, 1⟩, ⟨1, (0, 100), 10, 1⟩,
             ⟨1, (0, 120), 12, 1⟩, ⟨1, (0, 140), 14, 1⟩])
          ⟨1, (0, 160), 16, 1⟩).1 ≠ 0) ∧
    (estimate_speed axisNorm
        (runCalls axisNorm Tracker.init
          ([⟨1, (0, 0), 0, 1⟩, ⟨1, (0, 20), 2, 1⟩, ⟨1, (0, 40), 4, 1⟩,
            ⟨1, (0, 60), 6, 1⟩, ⟨1, (0, 80), 8, 1⟩, ⟨1, (0, 100), 10, 1⟩,
            ⟨1, (0, 120), 12, 1⟩, ⟨1, (0, 140), 14, 1⟩] ++
           ⟨1, (0, 160), 16, 1⟩ :: [⟨1, (0, 180), 18, 1⟩]))
        ⟨1, (0, 200), 20, 1⟩).1 ≠ 0 :=
  ⟨⟨rfl,
    by norm_num [runCalls, estimate_speed, instSpeed, smoothedSpeed, round1, pyRound,
      axisNorm, Tracker.init, Function.update_same, Function.update_idem,
      List.insertionSort, List.orderedInsert],
    by norm_num,
    by norm_num [runCalls, estimate_speed, instSpeed, smoothedSpeed, round1, pyRound,
      axisNorm, Tracker.init, Function.update_same, Function.update_idem,
      List.insertionSort, List.orderedInsert]⟩,
   (claim_C10_gate_stays_open axisNorm
      [⟨1, (0, 0), 0, 1⟩, ⟨1, (0, 20), 2, 1⟩, ⟨1, (0, 40), 4, 1⟩,
       ⟨1, (0, 60), 6, 1⟩, ⟨1, (0, 80), 8, 1⟩, ⟨1, (0, 100), 10, 1⟩,
       ⟨1, (0, 120), 12, 1⟩, ⟨1, (0, 140), 14, 1⟩]
      [⟨1, (0, 180), 18, 1⟩]
      ⟨1, (0, 160), 16, 1⟩ ⟨1, (0, 200), 20, 1⟩
      ⟨14, (0, 140), [36, 36, 36, 36, 36, 36, 36], 36, 14, 7⟩
      rfl
      (by norm_num [runCalls, estimate_speed, instSpeed, smoothedSpeed, round1, pyRound,
        axisNorm, Tracker.init, Function.update_same, Function.update_idem,
        List.insertionSort, List.orderedInsert])
      (by norm_num)
      (by norm_num [runCalls, estimate_speed, instSpeed, smoothedSpeed, round1, pyRound,
        axisNorm, Tracker.init, Function.update_same, Function.update_idem,
        List.insertionSort, List.orderedInsert])).2⟩

/-- Counterexample to C10 as stated: a duplicate-frame call returns the
internally smoothed 72 while the gate is still closed (a nonzero
return), yet the following motionless observation is reported as 0
again. -/
theorem claim_C10_counterexample :
    (estimate_speed axisNorm
        (runCalls axisNorm Tracker.init [⟨1, (0, 0), 0, 1⟩, ⟨1, (0, 20), 1, 1⟩])
        ⟨1, (9, 9), 1, 1⟩).1 = 72 ∧
    (estimate_speed axisNorm
        (estimate_speed axisNorm
          (runCalls axisNorm Tracker.init [⟨1, (0, 0), 0, 1⟩, ⟨1, (0, 20), 1, 1⟩])
          ⟨1, (9, 9), 1, 1⟩).2
        ⟨1, (0, 20), 2, 1⟩).1 = 0 ∧
    (72 : ℚ) ≠ 0 := by
  refine ⟨?_, ?_, by norm_num⟩ <;>
    norm_num [runCalls, estimate_speed, instSpeed, smoothedSpeed, round1, pyRound,
      axisNorm, Tracker.init, Function.update, List.insertionSort, List.orderedInsert]

/-! ### Lemmas about the plate reader -/

/-- Every character of a cleaned plate text is an `A-Z0-9` character. -/
theorem clean_plate_text_chars (t : String) :
    ∀ c ∈ (clean_plate_text t).data, isPlateChar c = true := by
  intro c hc
  exact List.of_mem_filter hc

/-- A cleaned plate text is never the literal `"Unknown"` (it contains
lowercase letters, which cleaning removes). -/
theorem clean_plate_text_ne_Unknown (t : String) :
    clean_plate_text t ≠ "Unknown" := by
  intro h
  have hn : 'n' ∈ (clean_plate_text t).data := by
    rw [h]
    decide
  have := clean_plate_text_chars t 'n' hn
  exact absurd this (by decide)

/-- A successful candidate scan returns a cleaned text. -/
theorem scanBoxes_clean (ops : ImgOps Img) (reader : Option (Img → List (String × ℚ)))
    (vehicle_frame : Img) :
    ∀ (boxes : List (ℤ × ℤ × ℤ × ℤ)) (n : ℕ) (b : String) (m : ℕ),
      scanBoxes ops reader vehicle_frame boxes n = .ok (some b, m) →
      ∃ t, b = clean_plate_text t := by
  intro boxes
  induction boxes with
  | nil =>
    intro n b m h
    simp [scanBoxes] at h
  | cons box rest ih =>
    intro n b m h
    simp only [scanBoxes] at h
    split_ifs at h with hsz
    · exact ih n b m h
    · cases reader with
      | none => simp at h
      | some readtext =>
        simp only [] at h
        cases hl : readtext (ops.cropBox vehicle_frame box) with
        | nil =>
          rw [hl] at h
          exact ih (n + 1) b m h
        | cons tc rest2 =>
          rw [hl] at h
          obtain ⟨text, confidence⟩ := tc
          simp only [] at h
          split_ifs at h with hconf
          · simp only [Except.ok.injEq, Prod.mk.injEq, Option.some.injEq] at h
            exact ⟨text, h.1.symm⟩
          · exact ih (n + 1) b m h

/-- The fallback accumulator only ever holds cleaned texts. -/
theorem pickCandidate_foldl_clean (l : List (String × ℚ)) :
    ∀ (acc : Option String × ℚ),
      (∀ b, acc.1 = some b → ∃ t, b = clean_plate_text t) →
      ∀ b, (l.foldl pickCandidate acc).1 = some b → ∃ t, b = clean_plate_text t := by
  induction l with
  | nil => intro acc hacc b h; exact hacc b h
  | cons tc rest ih =>
    intro acc hacc b h
    rw [List.foldl_cons] at h
    refine ih (pickCandidate acc tc) ?_ b h
    intro b' hb'
    simp only [pickCandidate] at hb'
    split_ifs at hb'
    · simp only [Option.some.injEq] at hb'
      exact ⟨tc.1, hb'.symm⟩
    · exact hacc b' hb'

/-- A successful fallback OCR returns a cleaned text. -/
theorem fallback_clean (ops : ImgOps Img) (st : ALPRState Img) (vehicle_frame : Img)
    (b : String) (h : (_fallback_ocr ops st vehicle_frame).1 = some b) :
    ∃ t, b = clean_plate_text t := by
  unfold _fallback_ocr at h
  revert h
  cases st.reader with
  | none => intro h; simp at h
  | some readtext =>
    simp only
    split_ifs
    · intro h; simp at h
    · intro h
      exact pickCandidate_foldl_clean _ (none, 0) (by intro b' hb'; simp at hb') b h

/-- A cache entry with a resolved text short-circuits the reader: the
text is returned, nothing is mutated, and neither the plate model nor
the OCR engine runs. -/
theorem detect_and_read_cache_hit (ops : ImgOps Img) (st : ALPRState Img)
    (vehicle_frame : Img) (track_id : ℤ) (now : ℚ) (e : CacheEntry)
    (hc : st.plate_cache track_id = some e)
    (he : e.text ≠ "" ∧ e.text ≠ "Unknown") :
    detect_and_read ops st vehicle_frame track_id now = .ok (some e.text, st, 0, 0) := by
  unfold detect_and_read
  rw [hc]
  exact if_pos he

/-- A successful, non-sentinel recognition attempt in model-loaded mode
writes its (cleaned) result into the cache. -/
theorem detect_attempt_success_caches (ops : ImgOps Img) (st : ALPRState Img)
    (vehicle_frame : Img) (track_id : ℤ) (now : ℚ) (s : String)
    (st' : ALPRState Img) (k : ℕ × ℕ)
    (hmodel : st.model_loaded = true)
    (h1 : detect_attempt ops st vehicle_frame track_id now = .ok (some s, st', k))
    (hs : s ≠ "") (hsc : s ≠ "Scanning...") :
    st'.plate_cache track_id = some ⟨s, now⟩ ∧ ∃ t, s = clean_plate_text t := by
  unfold detect_attempt at h1
  rw [hmodel] at h1
  rw [if_neg (by simp : ¬ (true = false))] at h1
  cases hscan : scanBoxes ops st.reader vehicle_frame (st.plate_model vehicle_frame) 0 with
  | error e =>
    rw [hscan] at h1
    simp at h1
  | ok p =>
    obtain ⟨best0, n0⟩ := p
    rw [hscan] at h1
    simp only [] at h1
    by_cases hcond : best0 = none ∨ best0 = some "" ∨ best0 = some "Scanning..."
    · rw [if_pos hcond] at h1
      simp only [] at h1
      cases hfb : (_fallback_ocr ops st vehicle_frame).1 with
      | none =>
        rw [hfb] at h1
        simp only [] at h1
        simp only [Except.ok.injEq, Prod.mk.injEq, Option.some.injEq] at h1
        exact absurd h1.1.symm hsc
      | some b =>
        rw [hfb] at h1
        simp only [] at h1
        by_cases hb : b = ""
        · rw [if_neg (by simp [hb] : ¬ b ≠ "")] at h1
          simp only [Except.ok.injEq, Prod.mk.injEq, Option.some.injEq] at h1
          exact absurd h1.1.symm hsc
        · rw [if_pos (by simp [hb] : b ≠ "")] at h1
          simp only [Except.ok.injEq, Prod.mk.injEq, Option.some.injEq] at h1
          obtain ⟨h1a, h1b, -⟩ := h1
          subst h1a
          rw [← h1b]
          exact ⟨by simp [hb, Function.update_same],
            fallback_clean ops st vehicle_frame _ hfb⟩
    · rw [if_neg hcond] at h1
      push_neg at hcond
      obtain ⟨hb0, hb1, hb2⟩ := hcond
      cases best0 with
      | none => exact absurd rfl hb0
      | some b =>
        simp only [] at h1
        by_cases hb : b = ""
        · exact absurd (congrArg some hb) hb1
        · rw [if_pos (by simp [hb] : b ≠ "")] at h1
          simp only [Except.ok.injEq, Prod.mk.injEq, Option.some.injEq] at h1
          obtain ⟨h1a, h1b, -⟩ := h1
          subst h1a
          rw [← h1b]
          exact ⟨by simp [hb, Function.update_same],
            scanBoxes_clean ops st.reader vehicle_frame _ 0 _ n0 hscan⟩

/-- C2 (amended, holds when the specialized plate model is loaded): once
`detect_and_read` has returned a non-empty, non-sentinel plate text for a
track id, every subsequent call for that id returns the same text,
leaves the state untouched, and performs zero plate-model and zero
OCR-engine invocations. -/
theorem claim_C2_resolved_durable (ops : ImgOps Img) (st : ALPRState Img)
    (frame frame2 : Img) (tid : ℤ) (now now2 : ℚ) (s : String)
    (st' : ALPRState Img) (k : ℕ × ℕ)
    (hmodel : st.model_loaded = true)
    (hinv : CacheInv st)
    (h1 : detect_and_read ops st frame tid now = .ok (some s, st', k))
    (hs : s ≠ "") (hsc : s ≠ "Scanning...") :
    detect_and_read ops st' frame2 tid now2 = .ok (some s, st', 0, 0) := by
  cases hc : st.plate_cache tid with
  | some data =>
    have hd := hinv tid data hc
    rw [detect_and_read_cache_hit ops st frame tid now data hc hd] at h1
    simp only [Except.ok.injEq, Prod.mk.injEq, Option.some.injEq] at h1
    obtain ⟨h1a, h1b, -⟩ := h1
    subst h1a
    rw [← h1b]
    exact detect_and_read_cache_hit ops st frame2 tid now2 data hc hd
  | none =>
    have h1' : detect_attempt ops st frame tid now = .ok (some s, st', k) := by
      unfold detect_and_read at h1
      rw [hc] at h1
      exact h1
    obtain ⟨hcache', t, hteq⟩ :=
      detect_attempt_success_caches ops st frame tid now s st' k hmodel h1' hs hsc
    have hne : (⟨s, now⟩ : CacheEntry).text ≠ "" ∧
        (⟨s, now⟩ : CacheEntry).text ≠ "Unknown" := by
      refine ⟨hs, ?_⟩
      rw [hteq]
      exact clean_plate_text_ne_Unknown t
    exact detect_and_read_cache_hit ops st' frame2 tid now2 ⟨s, now⟩ hcache' hne

/-- Witness for the amended C2: with the plate model loaded, the first
call resolves `"ABCDE1"` through the fallback stage and caches it; the
second call (5 seconds later, different frame) returns the cached text
with zero detector and zero OCR invocations. -/
theorem claim_C2_witness :
    (alprModelFallback.model_loaded = true ∧
     detect_and_read unitOps alprModelFallback () 1 0 =
       .ok (some "ABCDE1", alprModelFallbackCached, 1, 1) ∧
     ("ABCDE1" : String) ≠ "" ∧ ("ABCDE1" : String) ≠ "Scanning...") ∧
    detect_and_read unitOps alprModelFallbackCached () 1 5 =
      .ok (some "ABCDE1", alprModelFallbackCached, 0, 0) :=
  ⟨⟨rfl, rfl, by decide, by decide⟩,
   claim_C2_resolved_durable unitOps alprModelFallback () () 1 0 5 "ABCDE1"
     alprModelFallbackCached (1, 1) rfl (fun i e h => nomatch h) rfl
     (by decide) (by decide)⟩

/-- Counterexample to C2 as stated: with no specialized plate model
(`model_loaded = false`), a successful fallback read returns the
non-empty plate text `"ABCDE1"` but writes nothing into the cache (the
state is returned unchanged); the next call for the same track performs
a fresh OCR-engine invocation (count 1, not 0). -/
theorem claim_C2_counterexample :
    detect_and_read unitOps alprFallbackOnly () 1 0 =
      .ok (some "ABCDE1", alprFallbackOnly, 0, 1) ∧
    ("ABCDE1" : String) ≠ "" ∧ ("ABCDE1" : String) ≠ "Scanning..." ∧
    detect_and_read unitOps alprFallbackOnly () 1 1 =
      .ok (some "ABCDE1", alprFallbackOnly, 0, 1) :=
  ⟨rfl, by decide, by decide, rfl⟩

/-- C1 (code bug): a failed recognition attempt (model loaded, no
candidate boxes, OCR reads nothing) returns the `"Scanning..."` sentinel
but does not create or update any cache entry — `last_attempt_time` is
never recorded — so a second call 1.0 s later runs a full fresh attempt
(plate model invoked once, OCR engine invoked once) instead of being
throttled. -/
theorem claim_C1_failed_attempt_uncached :
    detect_and_read unitOps alprNoPlates () 1 0 =
      .ok (some "Scanning...", alprNoPlates, 1, 1) ∧
    alprNoPlates.plate_cache 1 = none ∧
    detect_and_read unitOps alprNoPlates () 1 1 =
      .ok (some "Scanning...", alprNoPlates, 1, 1) :=
  ⟨rfl, rfl, rfl⟩

/-- C7 (code bug): with the OCR reader unavailable, a call raises
(`self.reader.readtext` on `None`) as soon as the loaded plate detector
yields a candidate box with a non-empty crop; only the no-model path
degrades gracefully to the unresolved result. -/
theorem claim_C7_reader_none_raises :
    detect_and_read unitOps alprNoReader () 1 0 = .error () ∧
    detect_and_read unitOps alprNothing () 1 0 = .ok (none, alprNothing, 0, 0) :=
  ⟨rfl, rfl⟩

/-! ### Lemmas about the frame loop -/

/-- A box whose crop is empty yields a record with a null plate, leaves
the reader state untouched, and still runs the speed estimator. -/
theorem process_box_degenerate (env : ProcEnv Img) (frame : Img) (fn : ℤ)
    (S : ProcState Img) (b : BoxObs)
    (hcrop : env.ops.size (env.ops.cropBox frame (b.x1, b.y1, b.x2, b.y2)) = 0) :
    process_box env frame fn S b =
      .ok (⟨b.track_id, env.names b.cls_id, b.conf, (b.x1, b.y1, b.x2, b.y2), none,
              (estimate_speed env.norm2 S.tracker
                ⟨b.track_id, env.ground ((((b.x1 + b.x2) / 2 : ℤ) : ℚ), ((b.y2 : ℤ) : ℚ)),
                  fn, env.fps⟩).1⟩,
           ⟨(estimate_speed env.norm2 S.tracker
                ⟨b.track_id, env.ground ((((b.x1 + b.x2) / 2 : ℤ) : ℚ), ((b.y2 : ℤ) : ℚ)),
                  fn, env.fps⟩).2, S.alpr⟩) := by
  simp only [process_box]
  rw [hcrop]
  simp

/-- A record produced by one box never carries an empty or sentinel
plate text. -/
theorem process_box_plate (env : ProcEnv Img) (frame : Img) (fn : ℤ)
    (S : ProcState Img) (b : BoxObs) (r : Record) (S₁ : ProcState Img)
    (h : process_box env frame fn S b = .ok (r, S₁))
    (s : String) (hp : r.license_plate = some s) :
    s ≠ "" ∧ s ≠ "Scanning..." := by
  simp only [process_box] at h
  split_ifs at h with hsz
  · cases hdr : detect_and_read env.ops S.alpr
        (env.ops.cropBox frame (b.x1, b.y1, b.x2, b.y2)) b.track_id env.now with
    | error e =>
      rw [hdr] at h
      simp at h
    | ok res =>
      obtain ⟨read, alpr1, k⟩ := res
      rw [hdr] at h
      simp only [] at h
      simp only [Except.ok.injEq, Prod.mk.injEq] at h
      obtain ⟨hr, -⟩ := h
      subst hr
      cases read with
      | none => simp at hp
      | some s0 =>
        simp only [] at hp
        by_cases hcnd : s0 ≠ "" ∧ s0 ≠ "Scanning..."
        · rw [if_pos hcnd] at hp
          simp only [Option.some.injEq] at hp
          subst hp
          exact hcnd
        · rw [if_neg hcnd] at hp
          simp at hp
  · simp only [Except.ok.injEq, Prod.mk.injEq] at h
    obtain ⟨hr, -⟩ := h
    subst hr
    simp at hp

/-- Splitting the frame loop at a successful prefix. -/
theorem process_boxes_append (env : ProcEnv Img) (frame : Img) (fn : ℤ)
    (S : ProcState Img) (l₁ l₂ : List BoxObs) (recs : List Record)
    (S₁ : ProcState Img)
    (h : process_boxes env frame fn S l₁ = .ok (recs, S₁)) :
    process_boxes env frame fn S (l₁ ++ l₂) =
      (process_boxes env frame fn S₁ l₂).map (fun rs => (recs ++ rs.1, rs.2)) := by
  induction l₁ generalizing S recs S₁ with
  | nil =>
    simp only [process_boxes, Except.ok.injEq, Prod.mk.injEq] at h
    obtain ⟨rfl, rfl⟩ := h
    cases hres : process_boxes env frame fn S l₂ with
    | error e => simp [Except.map, hres]
    | ok p => simp [Except.map, hres]
  | cons b l₁ ih =>
    rw [show (b :: l₁) ++ l₂ = b :: (l₁ ++ l₂) from rfl]
    simp only [process_boxes] at h ⊢
    cases hb : process_box env frame fn S b with
    | error e =>
      rw [hb] at h
      simp at h
    | ok p =>
      obtain ⟨r, S2⟩ := p
      rw [hb] at h
      simp only [] at h ⊢
      cases hrest : process_boxes env frame fn S2 l₁ with
      | error e =>
        rw [hrest] at h
        simp at h
      | ok q =>
        obtain ⟨rs, S3⟩ := q
        rw [hrest] at h
        simp only [Except.ok.injEq, Prod.mk.injEq] at h
        obtain ⟨rfl, h2⟩ := h
        rw [← h2]
        rw [ih S2 rs S3 hrest]
        cases hres : process_boxes env frame fn S3 l₂ with
        | error e => simp [Except.map]
        | ok p2 => simp [Except.map, List.cons_append]

/-- C9 (confirmed): no emitted record ever carries the empty string or
the `"Scanning..."` sentinel as its plate value — the plate field is
null whenever the track's plate is unresolved. -/
theorem claim_C9_plate_null_when_unresolved (env : ProcEnv Img) (frame : Img)
    (fn : ℤ) (S : ProcState Img) (bs : List BoxObs) (recs : List Record)
    (S' : ProcState Img) (r : Record) (s : String)
    (hp : r.license_plate = some s)
    (h : process_boxes env frame fn S bs = .ok (recs, S'))
    (hr : r ∈ recs) :
    s ≠ "" ∧ s ≠ "Scanning..." := by
  suffices hgen : ∀ (S : ProcState Img) (recs : List Record) (S' : ProcState Img),
      process_boxes env frame fn S bs = .ok (recs, S') → r ∈ recs →
      s ≠ "" ∧ s ≠ "Scanning..." from hgen S recs S' h hr
  clear h hr
  induction bs with
  | nil =>
    intro S recs S' h hr
    simp only [process_boxes, Except.ok.injEq, Prod.mk.injEq] at h
    obtain ⟨rfl, -⟩ := h
    simp at hr
  | cons b rest ih =>
    intro S recs S' h hr
    simp only [process_boxes] at h
    cases hb : process_box env frame fn S b with
    | error e =>
      rw [hb] at h
      simp at h
    | ok p =>
      obtain ⟨r0, S1⟩ := p
      rw [hb] at h
      simp only [] at h
      cases hrest : process_boxes env frame fn S1 rest with
      | error e =>
        rw [hrest] at h
        simp at h
      | ok q =>
        obtain ⟨rs, S2⟩ := q
        rw [hrest] at h
        simp only [Except.ok.injEq, Prod.mk.injEq] at h
        obtain ⟨rfl, -⟩ := h
        rcases List.mem_cons.mp hr with rfl | hmem
        · exact process_box_plate env frame fn S b r S1 hb s hp
        · exact ih S1 rs S2 hrest hmem

/-- Witness for C9: a frame with one tracked box whose plate resolves to
`"ABCDE1"` emits exactly that record, and the theorem certifies the
value is not the sentinel. -/
theorem claim_C9_witness :
    ((⟨1, "car", 1, (0, 0, 4, 4), some "ABCDE1", 0⟩ : Record).license_plate =
       some "ABCDE1" ∧
     process_boxes procEnvU () 3 ⟨Tracker.init, alprModelFallback⟩
         [⟨0, 0, 4, 4, 1, 1, 2⟩] =
       .ok ([⟨1, "car", 1, (0, 0, 4, 4), some "ABCDE1", 0⟩],
            ⟨Function.update Tracker.init 1 (some ⟨3, (0, 0), [], 0, 0, 0⟩),
             alprModelFallbackCached⟩) ∧
     (⟨1, "car", 1, (0, 0, 4, 4), some "ABCDE1", 0⟩ : Record) ∈
       [(⟨1, "car", 1, (0, 0, 4, 4), some "ABCDE1", 0⟩ : Record)]) ∧
    (("ABCDE1" : String) ≠ "" ∧ ("ABCDE1" : String) ≠ "Scanning...") :=
  ⟨⟨rfl, rfl, by simp⟩,
   claim_C9_plate_null_when_unresolved procEnvU () 3 ⟨Tracker.init, alprModelFallback⟩
     [⟨0, 0, 4, 4, 1, 1, 2⟩]
     [⟨1, "car", 1, (0, 0, 4, 4), some "ABCDE1", 0⟩]
     ⟨Function.update Tracker.init 1 (some ⟨3, (0, 0), [], 0, 0, 0⟩),
      alprModelFallbackCached⟩
     ⟨1, "car", 1, (0, 0, 4, 4), some "ABCDE1", 0⟩ "ABCDE1" rfl rfl (by simp)⟩

/-- C8 (amended): a tracked box whose crop region is empty has its plate
recognition skipped — its record's plate is null and the reader state is
passed on untouched — but its speed estimation still runs (the
estimator is invoked and its updated tracker state is what the following
boxes see); boxes before and after it in the same frame are processed
normally. -/
theorem claim_C8_degenerate_crop (env : ProcEnv Img) (frame : Img) (fn : ℤ)
    (S0 : ProcState Img) (pre suf : List BoxObs) (b : BoxObs)
    (recs₁ : List Record) (S1 : ProcState Img)
    (hpre : process_boxes env frame fn S0 pre = .ok (recs₁, S1))
    (hcrop : env.ops.size (env.ops.cropBox frame (b.x1, b.y1, b.x2, b.y2)) = 0) :
    process_boxes env frame fn S0 (pre ++ b :: suf) =
      (process_boxes env frame fn ⟨(estimate_speed env.norm2 S1.tracker
              ⟨b.track_id, env.ground ((((b.x1 + b.x2) / 2 : ℤ) : ℚ), ((b.y2 : ℤ) : ℚ)),
                fn, env.fps⟩).2, S1.alpr⟩ suf).map
        (fun rs => (recs₁ ++ ⟨b.track_id, env.names b.cls_id, b.conf, (b.x1, b.y1, b.x2, b.y2), none,
            (estimate_speed env.norm2 S1.tracker
              ⟨b.track_id, env.ground ((((b.x1 + b.x2) / 2 : ℤ) : ℚ), ((b.y2 : ℤ) : ℚ)),
                fn, env.fps⟩).1⟩ :: rs.1, rs.2)) := by
  have hb := process_box_degenerate env frame fn S1 b hcrop
  have hsingle : process_boxes env frame fn S1 [b] =
      .ok ([⟨b.track_id, env.names b.cls_id, b.conf, (b.x1, b.y1, b.x2, b.y2), none,
            (estimate_speed env.norm2 S1.tracker
              ⟨b.track_id, env.ground ((((b.x1 + b.x2) / 2 : ℤ) : ℚ), ((b.y2 : ℤ) : ℚ)),
                fn, env.fps⟩).1⟩], ⟨(estimate_speed env.norm2 S1.tracker
              ⟨b.track_id, env.ground ((((b.x1 + b.x2) / 2 : ℤ) : ℚ), ((b.y2 : ℤ) : ℚ)),
                fn, env.fps⟩).2, S1.alpr⟩) := by
    simp only [process_boxes]
    rw [hb]
  have hpre2 : process_boxes env frame fn S0 (pre ++ [b]) =
      .ok (recs₁ ++ [⟨b.track_id, env.names b.cls_id, b.conf, (b.x1, b.y1, b.x2, b.y2), none,
            (estimate_speed env.norm2 S1.tracker
              ⟨b.track_id, env.ground ((((b.x1 + b.x2) / 2 : ℤ) : ℚ), ((b.y2 : ℤ) : ℚ)),
                fn, env.fps⟩).1⟩], ⟨(estimate_speed env.norm2 S1.tracker
              ⟨b.track_id, env.ground ((((b.x1 + b.x2) / 2 : ℤ) : ℚ), ((b.y2 : ℤ) : ℚ)),
                fn, env.fps⟩).2, S1.alpr⟩) := by
    rw [process_boxes_append env frame fn S0 pre [b] recs₁ S1 hpre, hsingle]
    rfl
  have hassoc : pre ++ b :: suf = (pre ++ [b]) ++ suf := by
    rw [List.append_assoc]
    rfl
  rw [hassoc,
    process_boxes_append env frame fn S0 (pre ++ [b]) suf _ _ hpre2]
  cases hres : process_boxes env frame fn ⟨(estimate_speed env.norm2 S1.tracker
              ⟨b.track_id, env.ground ((((b.x1 + b.x2) / 2 : ℤ) : ℚ), ((b.y2 : ℤ) : ℚ)),
                fn, env.fps⟩).2, S1.alpr⟩ suf with
  | error e => simp [Except.map]
  | ok p => simp [Except.map, List.append_assoc]

/-- Witness for the amended C8: one degenerate box in an otherwise empty
frame; its record has a null plate and speed 0, the reader state is
untouched, and the estimator state advanced (track 7 got registered). -/
theorem claim_C8_witness :
    (process_boxes procEnvZero () 3 ⟨Tracker.init, alprNoPlates⟩ [] =
       .ok ([], ⟨Tracker.init, alprNoPlates⟩) ∧
     procEnvZero.ops.size (procEnvZero.ops.cropBox () (0, 0, 4, 4)) = 0) ∧
    process_boxes procEnvZero () 3 ⟨Tracker.init, alprNoPlates⟩
        [⟨0, 0, 4, 4, 7, 1, 2⟩] =
      (process_boxes procEnvZero () 3
          ⟨Function.update Tracker.init 7 (some ⟨3, (0, 0), [], 0, 0, 0⟩),
           alprNoPlates⟩ []).map
        (fun rs => (⟨7, "car", 1, (0, 0, 4, 4), none, 0⟩ :: rs.1, rs.2)) :=
  ⟨⟨rfl, rfl⟩,
   claim_C8_degenerate_crop procEnvZero () 3 ⟨Tracker.init, alprNoPlates⟩ [] []
     ⟨0, 0, 4, 4, 7, 1, 2⟩ [] ⟨Tracker.init, alprNoPlates⟩ rfl rfl⟩

/-- Counterexample to C8 as stated: processing a frame whose only
tracked box has a degenerate crop still runs the speed estimator — the
previously unseen track 7 ends up registered in the tracker map — so
speed estimation is not skipped for that box. -/
theorem claim_C8_counterexample :
    process_boxes procEnvZero () 3 ⟨Tracker.init, alprNoPlates⟩
        [⟨0, 0, 4, 4, 7, 1, 2⟩] =
      .ok ([⟨7, "car", 1, (0, 0, 4, 4), none, 0⟩],
           ⟨Function.update Tracker.init 7 (some ⟨3, (0, 0), [], 0, 0, 0⟩),
            alprNoPlates⟩) ∧
    Tracker.init 7 = none ∧
    Function.update Tracker.init 7 (some ⟨3, (0, 0), [], 0, 0, 0⟩) 7 =
      some ⟨3, (0, 0), [], 0, 0, 0⟩ :=
  ⟨rfl, rfl, by simp⟩

end SkyMarshal
